import Mathlib

/-!
Shallow embedding of the navitia Go client library (package `types`),
covering the units the verification claims are about:

* `ID` with its `Check` and `Type` methods (src/unnamed/part_000);
* the `Place` variants, `PlaceCountainer` and its `Place()` method
  (src/types/place.go);
* `Coordinates.UnmarshalJSON` (src/types/coordinates_json.go).

Modelling conventions:

* Go strings are modelled as Lean `String` (splitting works on `List Char`;
  the separator `:` is a single ASCII byte, so byte-level and char-level
  splitting agree on valid UTF-8 input).
* Go `float64` is modelled as `Rat`. The claims never compute with floats:
  float values are only produced by the (parameterised) `strconv.ParseFloat`
  and carried around, so only their identity matters. IEEE NaN and signed
  zero are not modelled; no claim exercises them.
* Go pointer fields (`*StopArea` etc.) are modelled as `Option`; a nil
  pointer is `none`.
* A Go `error` return is modelled as `Option GoErr` (`none` = nil error);
  functions returning `(T, error)` return a pair.
* Functions of external libraries (`encoding/json`, `strconv`) that the
  repository merely calls are parameters of the embedding, keeping their
  Go shapes: `strconv.ParseFloat` returns a float *and* an error, and the
  Go multiple assignment `c.Longitude, err = strconv.ParseFloat(...)`
  stores the float component unconditionally.
-/

/-- Model of Go `error` values as produced by this code base:
`errors.Errorf`, `errors.Wrap`, and the field-context errors of
`unmarshalErrorMaker`. -/
inductive GoErr where
  | errorf (msg : String) : GoErr
  | wrap (inner : GoErr) (msg : String) : GoErr
  | fieldErr (structName raw fieldName jsonName value msg : String) (inner : GoErr) : GoErr
deriving DecidableEq

/-- Go: `type ID string` (src/unnamed/part_000). -/
abbrev ID := String

/-- Go: `func (id ID) Check() error` — an empty string is rejected,
anything else accepted. `len(id) == 0` (byte length) holds exactly for
the empty string. -/
def ID.Check (id : ID) : Option GoErr :=
  if id.length = 0 then
    some (.errorf "ID invalid: an empty string \x22\x22 is not a valid ID")
  else
    none

/-- Go `strings.Split(s, sep)` for a one-character separator, on the
character list of the string. `strings.Split` of the empty string is a
one-element slice holding the empty string, and the result is never
empty. -/
def goSplitChar (sep : Char) : List Char → List (List Char)
  | [] => [[]]
  | c :: cs =>
    if c = sep then
      [] :: goSplitChar sep cs
    else
      match goSplitChar sep cs with
      | [] => [[c]]
      | r :: rs => (c :: r) :: rs

/-- Go: the `typeNames` map — navitia-side names of types that may appear
in IDs; lookup of any other key yields `false`. -/
def typeNames (s : String) : Bool :=
  s = "network" || s = "line" || s = "route" || s = "stop_area" ||
  s = "commercial_mode" || s = "physical_mode" || s = "company" ||
  s = "admin" || s = "stop_point"

/-- Go: `func (id ID) Type() string` — split the ID on `:`, look the first
element up in `typeNames`, return it on success and `""` otherwise.
(The `len(splitted) == 0` branch of the source is kept although
`strings.Split` never returns an empty slice.) -/
def ID.Type (id : ID) : String :=
  match goSplitChar ':' id.toList with
  | [] => ""
  | possible :: _ =>
    if typeNames (String.mk possible) then String.mk possible else ""

/-- Go `float64`, modelled as `Rat` (see the header). -/
abbrev Float64 := Rat

/-- Go: `type Coordinates struct { Latitude, Longitude float64 }`.
The struct itself is declared outside the analysed sources; its two
float64 fields are visible in `coordinates_json.go`. -/
structure Coordinates where
  Latitude : Float64
  Longitude : Float64
deriving DecidableEq

/-- Modelled from the spec: the `Equipment` type is referenced by
`StopPoint` but declared outside the analysed sources; no claim depends
on its contents. Modelled as its navitia string code. -/
abbrev Equipment := String

/-- Go: `type POIType struct` — the type of a point of interest. -/
structure POIType where
  ID : ID
  Name : String

/-- Go: `type POI struct` — a point of interest. The Go field `Type`
collides with a Lean keyword and is rendered `Type'`. -/
structure POI where
  ID : ID
  Name : String
  Label : String
  Type' : POIType

/-- Go: `type AdministrativeRegion struct`. -/
structure AdministrativeRegion where
  ID : ID
  Name : String
  Label : String
  Coord : Coordinates
  Level : Int
  ZipCode : String

/-- Go: `type Address struct`. -/
structure Address where
  ID : ID
  Name : String
  Label : String
  Coord : Coordinates
  HouseNumber : Nat
  AdministrativeRegions : List AdministrativeRegion

mutual
/-- Go: `type StopArea struct` — holds `[]StopPoint`, while `StopPoint`
holds `*StopArea`, hence the mutual declaration. -/
inductive StopArea where
  | mk (ID : ID) (Name : String) (Label : String) (Coord : Coordinates)
      (AdministrativeRegions : List AdministrativeRegion)
      (StopPoints : List StopPoint) : StopArea

/-- Go: `type StopPoint struct`. -/
inductive StopPoint where
  | mk (ID : ID) (Name : String) (Coord : Coordinates)
      (AdministrativeRegions : List AdministrativeRegion)
      (Equipments : List Equipment)
      (StopArea : Option StopArea) : StopPoint
end

/-- Go: a non-nil interface value of static type `Place`. `Place()`
stores variant POINTERS in the interface (`return pc.StopArea, nil`), so
each constructor carries the pointer, i.e. an `Option` of the variant: a
non-nil interface may wrap a nil pointer (the Go typed nil, for which
`p == nil` is false on the caller side). The nil interface itself is the
`none` of `Option Place`. -/
inductive Place where
  | stopArea (sa : Option StopArea) : Place
  | poi (p : Option POI) : Place
  | address (a : Option Address) : Place
  | stopPoint (sp : Option StopPoint) : Place
  | administrativeRegion (ar : Option AdministrativeRegion) : Place

/-- Go: `func (sa StopArea) PlaceType() string { return "stop_area" }`. -/
def StopArea.PlaceType (_ : StopArea) : String := "stop_area"

/-- Go: `func (poi POI) PlaceType() string { return "poi" }`. -/
def POI.PlaceType (_ : POI) : String := "poi"

/-- Go: `func (add Address) PlaceType() string { return "address" }`. -/
def Address.PlaceType (_ : Address) : String := "address"

/-- Go: `func (sp StopPoint) PlaceType() string { return "stop_point" }`. -/
def StopPoint.PlaceType (_ : StopPoint) : String := "stop_point"

/-- Go: `func (ar AdministrativeRegion) PlaceType() string { return "administrative_region" }`. -/
def AdministrativeRegion.PlaceType (_ : AdministrativeRegion) : String :=
  "administrative_region"

/-- Interface dispatch of `PlaceType()` on a non-nil `Place` interface
value. The Go methods have value receivers, so a call through an
interface wrapping a nil variant pointer dereferences that nil pointer
and panics; the panic is modelled as `none`, a call on a populated
variant as `some` of the returned string. -/
def Place.PlaceType : Place → Option String
  | .stopArea (some sa) => some sa.PlaceType
  | .poi (some p) => some p.PlaceType
  | .address (some a) => some a.PlaceType
  | .stopPoint (some sp) => some sp.PlaceType
  | .administrativeRegion (some ar) => some ar.PlaceType
  | .stopArea none => none
  | .poi none => none
  | .address none => none
  | .stopPoint none => none
  | .administrativeRegion none => none

/-- Go: `func (sa StopArea) PlaceID() ID { return sa.ID }`. -/
def StopArea.PlaceID : StopArea → ID
  | .mk i _ _ _ _ _ => i

/-- Go: `func (sa StopArea) PlaceName() string { return sa.Name }`. -/
def StopArea.PlaceName : StopArea → String
  | .mk _ n _ _ _ _ => n

/-- Go: `func (sp StopPoint) PlaceID() ID { return sp.ID }`. -/
def StopPoint.PlaceID : StopPoint → ID
  | .mk i _ _ _ _ _ => i

/-- Go: `func (sp StopPoint) PlaceName() string { return sp.Name }`. -/
def StopPoint.PlaceName : StopPoint → String
  | .mk _ n _ _ _ _ => n

/-- Go: `type PlaceCountainer struct` — the tagged-union container sent
by the navitia API; the five variant fields are pointers, modelled as
`Option`. -/
structure PlaceCountainer where
  ID : ID
  Name : String
  Quality : Nat
  EmbeddedType : String
  StopArea : Option StopArea
  POI : Option POI
  Address : Option Address
  StopPoint : Option StopPoint
  AdministrativeRegion : Option AdministrativeRegion

/-- The zero value `PlaceCountainer{}` of the Go code. -/
def PlaceCountainer.empty : PlaceCountainer :=
  ⟨"", "", 0, "", none, none, none, none, none⟩

/-- Go: the comparison `pc == empty` of `Place()`. Go struct equality
compares the scalar fields by value and the five pointer fields by
address; against the zero value the pointer comparison is exactly a nil
test, i.e. `isNone`. -/
def PlaceCountainer.eqEmpty (pc : PlaceCountainer) : Bool :=
  decide (pc.ID = "") && decide (pc.Name = "") && decide (pc.Quality = 0) &&
  decide (pc.EmbeddedType = "") &&
  pc.StopArea.isNone && pc.POI.isNone && pc.Address.isNone &&
  pc.StopPoint.isNone && pc.AdministrativeRegion.isNone

/-- Go: `func (pc PlaceCountainer) Place() (Place, error)` — nil result
on the zero value, otherwise a switch on `EmbeddedType` returning the
matching pointer field as the `Place`, and an error on an unknown
discriminant. `return pc.StopArea, nil` converts the pointer to the
interface: the resulting interface value is non-nil (`some`) even when
the pointer inside is nil (Go typed nil); the literal `nil` returns of
the zero-value and default branches are the nil interface (`none`). The
Go `switch` is rendered as the equivalent chain of equality tests. -/
def PlaceCountainer.Place (pc : PlaceCountainer) : Option Place × Option GoErr :=
  if pc.eqEmpty then (none, none)
  else if pc.EmbeddedType = "stop_area" then (some (Place.stopArea pc.StopArea), none)
  else if pc.EmbeddedType = "poi" then (some (Place.poi pc.POI), none)
  else if pc.EmbeddedType = "address" then (some (Place.address pc.Address), none)
  else if pc.EmbeddedType = "stop_point" then (some (Place.stopPoint pc.StopPoint), none)
  else if pc.EmbeddedType = "administrative_region" then
    (some (Place.administrativeRegion pc.AdministrativeRegion), none)
  else
    (none, some (.errorf ("No known embedded type indicated (we have \x22" ++
      pc.EmbeddedType ++ "\x22), can\x27t return a place !")))

/-- The anonymous analogous struct of `Coordinates.UnmarshalJSON`:
`struct { Latitude string json:lat; Longitude string json:lon }`. -/
structure CoordRaw where
  Latitude : String
  Longitude : String

/-- Modelled from the spec: `unmarshalErrorMaker` is declared outside the
analysed sources; per the spec it reports a parse error with a named
field context. It carries the struct name and the raw JSON, and `err`
attaches the Go field name, the JSON field name, the offending value and
a message to the inner error. -/
structure unmarshalErrorMaker where
  structName : String
  raw : String

/-- Modelled from the spec: the `err` method of `unmarshalErrorMaker`
(see `unmarshalErrorMaker`). -/
def unmarshalErrorMaker.err (gen : unmarshalErrorMaker) (inner : GoErr)
    (fieldName jsonName value msg : String) : GoErr :=
  .fieldErr gen.structName gen.raw fieldName jsonName value msg inner

/-- Go: `func (c *Coordinates) UnmarshalJSON(b []byte) error`
(src/types/coordinates_json.go), as a state transformer on the receiver.

`jsonUnmarshalCoordRaw` stands for the `Unmarshal` function of
`encoding/json` applied to the analogous struct, and `parseFloat` for
`strconv.ParseFloat(·, 64)`; both are external library functions and
hence parameters. `parseFloat` keeps the Go shape `(float64, error)`: the
multiple assignment
`c.Longitude, err = strconv.ParseFloat(...)` stores the float component
unconditionally and then checks the error. -/
def Coordinates.UnmarshalJSON
    (jsonUnmarshalCoordRaw : String → Except GoErr CoordRaw)
    (parseFloat : String → Float64 × Option GoErr)
    (c : Coordinates) (b : String) : Coordinates × Option GoErr :=
  match jsonUnmarshalCoordRaw b with
  | .error e => (c, some (.wrap e "Error while unmarshalling journey"))
  | .ok data =>
    let gen : unmarshalErrorMaker := ⟨"Coordinates", b⟩
    let lonRes := parseFloat data.Longitude
    let c := { c with Longitude := lonRes.1 }
    match lonRes.2 with
    | some e =>
      (c, some (gen.err e "Longitude" "lon" data.Longitude "error in strconv.ParseFloat"))
    | none =>
      let latRes := parseFloat data.Latitude
      let c := { c with Latitude := latRes.1 }
      match latRes.2 with
      | some e =>
        (c, some (gen.err e "Latitude" "lat" data.Latitude "error in strconv.ParseFloat"))
      | none => (c, none)

/-- The phrase of claim C4, following the words of the spec: the substring
of the ID before its first colon (the whole ID when it has no colon), to
be compared with what `ID.Type` computes via `strings.Split`. -/
def beforeColon (id : ID) : String :=
  String.mk (id.toList.takeWhile (fun c => decide (c ≠ ':')))

/-- Sample stop area, used by the witnesses. -/
def saEx : StopArea := .mk "stop_area:SA1" "Gare" "Gare (Label)" ⟨0, 0⟩ [] []

/-- Sample point of interest, used by the witnesses. -/
def poiEx : POI := ⟨"poi:P1", "Museum", "Museum (Label)", ⟨"poi_type:museum", "museum"⟩⟩

/-- Sample address, used by the witnesses. -/
def addrEx : Address := ⟨"address:A1", "Rue X", "Rue X (Label)", ⟨0, 0⟩, 12, []⟩

/-- Sample stop point, used by the witnesses. -/
def spEx : StopPoint := .mk "stop_point:SP1" "Quai 1" ⟨0, 0⟩ [] [] none

/-- Sample administrative region, used by the witnesses. -/
def arEx : AdministrativeRegion := ⟨"admin:R1", "Ville", "Ville (Label)", ⟨0, 0⟩, 8, "75000"⟩

/-- Concrete instantiation of `strconv.ParseFloat(·, 64)` on the sample
inputs of the witnesses, faithful to the strconv contract there:
`ParseFloat("1", 64) = (1, nil)`, `ParseFloat("2", 64) = (2, nil)`, and on
a string that is not syntactically a number, such as `"x"`, ParseFloat
returns the float 0 together with a syntax error. -/
def parseFloatEx : String → Float64 × Option GoErr :=
  fun s =>
    if s = "1" then (1, none)
    else if s = "2" then (2, none)
    else (0, some (.errorf "invalid syntax"))

/-- Concrete decode result: the JSON object with field `lat` holding the
non-numeric string `"x"` and field `lon` holding `"1"`. -/
def jsonUnmarshalLatBad : String → Except GoErr CoordRaw := fun _ => .ok ⟨"x", "1"⟩

/-- Concrete decode result: `lat` holds `"1"`, `lon` holds the
non-numeric string `"x"`. -/
def jsonUnmarshalLonBad : String → Except GoErr CoordRaw := fun _ => .ok ⟨"1", "x"⟩

/-- Concrete decode result: `lat` holds `"2"`, `lon` holds `"1"`, both
numeric. -/
def jsonUnmarshalOk : String → Except GoErr CoordRaw := fun _ => .ok ⟨"2", "1"⟩

/-- Concrete decode failure of `encoding/json` on malformed input. -/
def jsonUnmarshalFail : String → Except GoErr CoordRaw :=
  fun _ => .error (.errorf "unexpected end of JSON input")

/-- The head of `strings.Split(s, sep)` is the longest prefix of `s` free
of the separator. -/
theorem goSplitChar_head (sep : Char) (l : List Char) :
    ∃ rest, goSplitChar sep l = l.takeWhile (fun c => decide (c ≠ sep)) :: rest := by
  induction l with
  | nil => exact ⟨[], rfl⟩
  | cons c cs ih =>
    obtain ⟨rest, hrest⟩ := ih
    by_cases h : c = sep
    · exact ⟨goSplitChar sep cs, by simp [goSplitChar, h]⟩
    · exact ⟨rest, by simp [goSplitChar, h, hrest]⟩

/-- The `typeNames` map holds exactly the nine known type names. -/
theorem typeNames_mem_iff (s : String) :
    typeNames s = true ↔
      s ∈ ["network", "line", "route", "stop_area", "commercial_mode",
           "physical_mode", "company", "admin", "stop_point"] := by
  simp [typeNames, List.mem_cons]
  tauto

/-- `ID.Type` looks the before-colon prefix up in `typeNames`. -/
theorem ID.Type_eq_beforeColon (id : ID) :
    ID.Type id = if typeNames (beforeColon id) then beforeColon id else "" := by
  obtain ⟨rest, h⟩ := goSplitChar_head ':' id.toList
  unfold ID.Type beforeColon
  rw [h]

/-- Claim C1: for every PlaceCountainer whose EmbeddedType equals one of
the five recognized discriminant strings and whose corresponding variant
field is populated (non-nil), `Place()` returns that variant as the Place
and a nil error; in particular with embedded type `stop_area` and a
populated StopArea field it returns that StopArea. -/
theorem C1_place_returns_matching_populated_variant (pc : PlaceCountainer) :
    (∀ sa, pc.EmbeddedType = "stop_area" → pc.StopArea = some sa →
      pc.Place = (some (.stopArea (some sa)), none)) ∧
    (∀ p, pc.EmbeddedType = "poi" → pc.POI = some p →
      pc.Place = (some (.poi (some p)), none)) ∧
    (∀ a, pc.EmbeddedType = "address" → pc.Address = some a →
      pc.Place = (some (.address (some a)), none)) ∧
    (∀ sp, pc.EmbeddedType = "stop_point" → pc.StopPoint = some sp →
      pc.Place = (some (.stopPoint (some sp)), none)) ∧
    (∀ ar, pc.EmbeddedType = "administrative_region" → pc.AdministrativeRegion = some ar →
      pc.Place = (some (.administrativeRegion (some ar)), none)) := by
  refine ⟨?_, ?_, ?_, ?_, ?_⟩ <;> intro v h1 h2 <;>
    simp [PlaceCountainer.Place, PlaceCountainer.eqEmpty, h1, h2]

/-- Witness for C1: each of the five discriminants, on a container whose
matching variant is populated. -/
theorem C1_witness :
    (PlaceCountainer.mk "" "" 0 "stop_area" (some saEx) none none none none).Place
      = (some (.stopArea (some saEx)), none) ∧
    (PlaceCountainer.mk "" "" 0 "poi" none (some poiEx) none none none).Place
      = (some (.poi (some poiEx)), none) ∧
    (PlaceCountainer.mk "" "" 0 "address" none none (some addrEx) none none).Place
      = (some (.address (some addrEx)), none) ∧
    (PlaceCountainer.mk "" "" 0 "stop_point" none none none (some spEx) none).Place
      = (some (.stopPoint (some spEx)), none) ∧
    (PlaceCountainer.mk "" "" 0 "administrative_region" none none none none (some arEx)).Place
      = (some (.administrativeRegion (some arEx)), none) :=
  ⟨(C1_place_returns_matching_populated_variant _).1 saEx rfl rfl,
   (C1_place_returns_matching_populated_variant _).2.1 poiEx rfl rfl,
   (C1_place_returns_matching_populated_variant _).2.2.1 addrEx rfl rfl,
   (C1_place_returns_matching_populated_variant _).2.2.2.1 spEx rfl rfl,
   (C1_place_returns_matching_populated_variant _).2.2.2.2 arEx rfl rfl⟩

/-- Claim C2: for every PlaceCountainer that is not equal to the zero
value and whose EmbeddedType is not one of the five recognized
discriminant strings, `Place()` returns a nil Place together with a
non-nil error. -/
theorem C2_unknown_embedded_type_error (pc : PlaceCountainer) (h : pc.eqEmpty = false)
    (h2 : pc.EmbeddedType ∉
      ["stop_area", "poi", "address", "stop_point", "administrative_region"]) :
    ∃ e, pc.Place = (none, some e) := by
  simp [List.mem_cons] at h2
  obtain ⟨n1, n2, n3, n4, n5⟩ := h2
  exact ⟨GoErr.errorf ("No known embedded type indicated (we have \x22" ++
    pc.EmbeddedType ++ "\x22), can\x27t return a place !"),
    by simp [PlaceCountainer.Place, h, n1, n2, n3, n4, n5]⟩

/-- Witness for C2: a non-empty container with the unrecognized
discriminant `foo`. -/
theorem C2_witness :
    ∃ e, (PlaceCountainer.mk "" "x" 0 "foo" none none none none none).Place
      = (none, some e) :=
  C2_unknown_embedded_type_error
    (PlaceCountainer.mk "" "x" 0 "foo" none none none none none) rfl (by decide)

/-- Claim C3: `Place()` called on the zero-valued PlaceCountainer (every
field at its zero value) returns a nil Place and a nil error. -/
theorem C3_zero_container_place : PlaceCountainer.empty.Place = (none, none) := rfl

/-- Claim C4: for every ID, `Type()` returns the substring of the ID
before the first colon exactly when that substring is one of the nine
known type names, and the empty string for every other ID. -/
theorem C4_id_type_known_names (id : ID) :
    ID.Type id =
      if beforeColon id ∈ ["network", "line", "route", "stop_area", "commercial_mode",
          "physical_mode", "company", "admin", "stop_point"] then beforeColon id else "" := by
  rw [ID.Type_eq_beforeColon]
  by_cases hm : beforeColon id ∈ ["network", "line", "route", "stop_area", "commercial_mode",
      "physical_mode", "company", "admin", "stop_point"]
  · rw [if_pos hm, if_pos ((typeNames_mem_iff _).2 hm)]
  · rw [if_neg hm, if_neg (fun hc => hm ((typeNames_mem_iff _).1 hc))]

/-- Claim C5: `ID.Check()` returns a non-nil error when the ID is the
empty string, and returns nil for every non-empty ID string. -/
theorem C5_id_check_empty (id : ID) : ID.Check id = none ↔ id ≠ "" := by
  unfold ID.Check
  rcases id with ⟨l⟩
  cases l with
  | nil => simp [String.length]
  | cons c cs => simp [String.length, String.ext_iff]

/-- Counterexample to claim C6 as stated: the claim says the value that
fails to parse is never stored, i.e. the failing field is left alone; but
the Go multiple assignment `c.Latitude, err = strconv.ParseFloat(...)`
stores the float returned alongside the error (0 on a syntax error).
Decoding `lat = "x"`, `lon = "1"` into the receiver `⟨5, 6⟩` returns an
error, yet Latitude has been overwritten from 5 to 0. -/
theorem C6_counterexample :
    (Coordinates.UnmarshalJSON jsonUnmarshalLatBad parseFloatEx ⟨5, 6⟩ "raw").2.isSome = true ∧
    (Coordinates.UnmarshalJSON jsonUnmarshalLatBad parseFloatEx ⟨5, 6⟩ "raw").1.Latitude = 0 ∧
    ¬ (Coordinates.UnmarshalJSON jsonUnmarshalLatBad parseFloatEx ⟨5, 6⟩ "raw").1.Latitude = 5 := by
  decide

/-- Claim C6 (amended): `Coordinates.UnmarshalJSON` parses the string
fields `lat` and `lon` of the decoded JSON object into Latitude and
Longitude, returning nil exactly when the JSON decodes and both strings
parse as floats; when either string fails to parse it returns an error
naming the offending field; the unparseable string itself is never
stored, but the corresponding field is overwritten with the float that
`strconv.ParseFloat` returns alongside the error, and a failure on `lon`
returns before `lat` is parsed. -/
theorem C6_amended_unmarshaljson (ju : String → Except GoErr CoordRaw)
    (pf : String → Float64 × Option GoErr) (c : Coordinates) (b : String) :
    ((Coordinates.UnmarshalJSON ju pf c b).2 = none ↔
      ∃ data, ju b = .ok data ∧ (pf data.Longitude).2 = none ∧
        (pf data.Latitude).2 = none) ∧
    (∀ e, ju b = .error e →
      Coordinates.UnmarshalJSON ju pf c b =
        (c, some (.wrap e "Error while unmarshalling journey"))) ∧
    (∀ data, ju b = .ok data → ∀ e, (pf data.Longitude).2 = some e →
      Coordinates.UnmarshalJSON ju pf c b =
        ({ c with Longitude := (pf data.Longitude).1 },
         some (.fieldErr "Coordinates" b "Longitude" "lon" data.Longitude
           "error in strconv.ParseFloat" e))) ∧
    (∀ data, ju b = .ok data → (pf data.Longitude).2 = none →
      ∀ e, (pf data.Latitude).2 = some e →
      Coordinates.UnmarshalJSON ju pf c b =
        (⟨(pf data.Latitude).1, (pf data.Longitude).1⟩,
         some (.fieldErr "Coordinates" b "Latitude" "lat" data.Latitude
           "error in strconv.ParseFloat" e))) ∧
    (∀ data, ju b = .ok data → (pf data.Longitude).2 = none →
      (pf data.Latitude).2 = none →
      Coordinates.UnmarshalJSON ju pf c b =
        (⟨(pf data.Latitude).1, (pf data.Longitude).1⟩, none)) := by
  refine ⟨?_, ?_, ?_, ?_, ?_⟩
  · cases hju : ju b with
    | error e => simp [Coordinates.UnmarshalJSON, hju]
    | ok data =>
      cases hlon : (pf data.Longitude).2 with
      | some e => simp [Coordinates.UnmarshalJSON, unmarshalErrorMaker.err, hju, hlon]
      | none =>
        cases hlat : (pf data.Latitude).2 with
        | some e => simp [Coordinates.UnmarshalJSON, unmarshalErrorMaker.err, hju, hlon, hlat]
        | none => simp [Coordinates.UnmarshalJSON, hju, hlon, hlat]
  · intro e hju
    simp [Coordinates.UnmarshalJSON, hju]
  · intro data hju e hlon
    simp [Coordinates.UnmarshalJSON, unmarshalErrorMaker.err, hju, hlon]
  · intro data hju hlon e hlat
    simp [Coordinates.UnmarshalJSON, unmarshalErrorMaker.err, hju, hlon, hlat]
  · intro data hju hlon hlat
    simp [Coordinates.UnmarshalJSON, hju, hlon, hlat]

/-- Witness for C6 (amended): all four outcomes on concrete inputs — a
decode failure, a failing `lon`, a failing `lat`, and full success. -/
theorem C6_witness :
    Coordinates.UnmarshalJSON jsonUnmarshalFail parseFloatEx ⟨5, 6⟩ "raw" =
      (⟨5, 6⟩, some (.wrap (.errorf "unexpected end of JSON input")
        "Error while unmarshalling journey")) ∧
    Coordinates.UnmarshalJSON jsonUnmarshalLonBad parseFloatEx ⟨5, 6⟩ "raw" =
      (⟨5, 0⟩, some (.fieldErr "Coordinates" "raw" "Longitude" "lon" "x"
        "error in strconv.ParseFloat" (.errorf "invalid syntax"))) ∧
    Coordinates.UnmarshalJSON jsonUnmarshalLatBad parseFloatEx ⟨5, 6⟩ "raw" =
      (⟨0, 1⟩, some (.fieldErr "Coordinates" "raw" "Latitude" "lat" "x"
        "error in strconv.ParseFloat" (.errorf "invalid syntax"))) ∧
    Coordinates.UnmarshalJSON jsonUnmarshalOk parseFloatEx ⟨5, 6⟩ "raw" =
      (⟨2, 1⟩, none) :=
  ⟨(C6_amended_unmarshaljson jsonUnmarshalFail parseFloatEx ⟨5, 6⟩ "raw").2.1 _ rfl,
   (C6_amended_unmarshaljson jsonUnmarshalLonBad parseFloatEx ⟨5, 6⟩ "raw").2.2.1
     ⟨"1", "x"⟩ rfl _ rfl,
   (C6_amended_unmarshaljson jsonUnmarshalLatBad parseFloatEx ⟨5, 6⟩ "raw").2.2.2.1
     ⟨"x", "1"⟩ rfl rfl _ rfl,
   (C6_amended_unmarshaljson jsonUnmarshalOk parseFloatEx ⟨5, 6⟩ "raw").2.2.2.2
     ⟨"2", "1"⟩ rfl rfl rfl⟩

/-- Counterexample to claim C8 as stated: the claim says `Place()`
returns a nil Place when the discriminant is recognized but the variant
pointer is nil; but Go converts the nil `*StopArea` to a NON-nil `Place`
interface value wrapping a typed nil pointer (`p == nil` is false for the
caller). On a non-empty container tagged `stop_area` with a nil StopArea
field, the returned error is nil but the returned Place is not nil. -/
theorem C8_counterexample :
    (PlaceCountainer.mk "" "x" 0 "stop_area" none none none none none).Place
        = (some (.stopArea none), none) ∧
    ((PlaceCountainer.mk "" "x" 0 "stop_area" none none none none none).Place).1.isSome
      = true :=
  ⟨rfl, rfl⟩

/-- Claim C8 (amended): for every PlaceCountainer that is not the zero
value, whose EmbeddedType is one of the five recognized discriminant
strings but whose corresponding variant pointer field is nil, `Place()`
returns a nil error — the missing variant is not reported as an error —
together with a Place that is not the nil interface: a non-nil interface
value wrapping the nil variant pointer (Go typed nil). -/
theorem C8_recognized_type_nil_variant (pc : PlaceCountainer) (h : pc.eqEmpty = false) :
    (pc.EmbeddedType = "stop_area" → pc.StopArea = none →
      pc.Place = (some (.stopArea none), none)) ∧
    (pc.EmbeddedType = "poi" → pc.POI = none →
      pc.Place = (some (.poi none), none)) ∧
    (pc.EmbeddedType = "address" → pc.Address = none →
      pc.Place = (some (.address none), none)) ∧
    (pc.EmbeddedType = "stop_point" → pc.StopPoint = none →
      pc.Place = (some (.stopPoint none), none)) ∧
    (pc.EmbeddedType = "administrative_region" → pc.AdministrativeRegion = none →
      pc.Place = (some (.administrativeRegion none), none)) := by
  refine ⟨?_, ?_, ?_, ?_, ?_⟩ <;> intro h1 h2 <;>
    simp [PlaceCountainer.Place, h, h1, h2]

/-- Witness for C8 (amended): non-empty containers (a populated Name)
with each recognized discriminant and a nil matching variant. -/
theorem C8_witness :
    (PlaceCountainer.mk "" "x" 0 "stop_area" none none none none none).Place
      = (some (.stopArea none), none) ∧
    (PlaceCountainer.mk "" "x" 0 "poi" none none none none none).Place
      = (some (.poi none), none) ∧
    (PlaceCountainer.mk "" "x" 0 "address" none none none none none).Place
      = (some (.address none), none) ∧
    (PlaceCountainer.mk "" "x" 0 "stop_point" none none none none none).Place
      = (some (.stopPoint none), none) ∧
    (PlaceCountainer.mk "" "x" 0 "administrative_region" none none none none none).Place
      = (some (.administrativeRegion none), none) :=
  ⟨(C8_recognized_type_nil_variant
      (PlaceCountainer.mk "" "x" 0 "stop_area" none none none none none) rfl).1 rfl rfl,
   (C8_recognized_type_nil_variant
      (PlaceCountainer.mk "" "x" 0 "poi" none none none none none) rfl).2.1 rfl rfl,
   (C8_recognized_type_nil_variant
      (PlaceCountainer.mk "" "x" 0 "address" none none none none none) rfl).2.2.1 rfl rfl,
   (C8_recognized_type_nil_variant
      (PlaceCountainer.mk "" "x" 0 "stop_point" none none none none none) rfl).2.2.2.1 rfl rfl,
   (C8_recognized_type_nil_variant
      (PlaceCountainer.mk "" "x" 0 "administrative_region" none none none none none)
      rfl).2.2.2.2 rfl rfl⟩

/-- Claim C9: `Coordinates.UnmarshalJSON` is not atomic on failure: if
the `lon` string parses as a float but the `lat` string does not, the
method returns an error while the Longitude field has already been
overwritten with the parsed longitude, leaving the receiver partially
updated. -/
theorem C9_partial_update_on_latitude_failure (ju : String → Except GoErr CoordRaw)
    (pf : String → Float64 × Option GoErr) (c : Coordinates) (b : String)
    (data : CoordRaw) (lonv : Float64)
    (hju : ju b = .ok data)
    (hlon : pf data.Longitude = (lonv, none))
    (hlat : (pf data.Latitude).2 ≠ none) :
    (Coordinates.UnmarshalJSON ju pf c b).2 ≠ none ∧
    (Coordinates.UnmarshalJSON ju pf c b).1.Longitude = lonv := by
  cases hlat' : (pf data.Latitude).2 with
  | none => exact absurd hlat' hlat
  | some e =>
    have h2 : (pf data.Longitude).2 = none := by rw [hlon]
    have h1 : (pf data.Longitude).1 = lonv := by rw [hlon]
    simp [Coordinates.UnmarshalJSON, hju, h2, hlat', h1]

/-- Witness for C9: `lat = "x"` fails while `lon = "1"` parses; the
receiver started with Longitude 6 and ends with Longitude 1 next to the
returned error. -/
theorem C9_witness :
    (Coordinates.UnmarshalJSON jsonUnmarshalLatBad parseFloatEx ⟨5, 6⟩ "raw").2 ≠ none ∧
    (Coordinates.UnmarshalJSON jsonUnmarshalLatBad parseFloatEx ⟨5, 6⟩ "raw").1.Longitude = 1 :=
  C9_partial_update_on_latitude_failure jsonUnmarshalLatBad parseFloatEx ⟨5, 6⟩ "raw"
    ⟨"x", "1"⟩ 1 rfl rfl (by decide)

/-- Claim C10: for every non-zero PlaceCountainer whose EmbeddedType is
one of the five recognized discriminants and whose corresponding variant
field is non-nil, the Place returned by `Place()` satisfies
`PlaceType() = EmbeddedType`; and each variant type returns its constant
type string for every value. -/
theorem C10_placetype_matches_embedded_type (pc : PlaceCountainer)
    (h : (∃ sa, pc.EmbeddedType = "stop_area" ∧ pc.StopArea = some sa) ∨
         (∃ p, pc.EmbeddedType = "poi" ∧ pc.POI = some p) ∨
         (∃ a, pc.EmbeddedType = "address" ∧ pc.Address = some a) ∨
         (∃ sp, pc.EmbeddedType = "stop_point" ∧ pc.StopPoint = some sp) ∨
         (∃ ar, pc.EmbeddedType = "administrative_region" ∧
            pc.AdministrativeRegion = some ar)) :
    (∃ pl, pc.Place = (some pl, none) ∧ pl.PlaceType = some pc.EmbeddedType) ∧
    (∀ sa : StopArea, sa.PlaceType = "stop_area") ∧
    (∀ p : POI, p.PlaceType = "poi") ∧
    (∀ a : Address, a.PlaceType = "address") ∧
    (∀ sp : StopPoint, sp.PlaceType = "stop_point") ∧
    (∀ ar : AdministrativeRegion, ar.PlaceType = "administrative_region") := by
  refine ⟨?_, fun _ => rfl, fun _ => rfl, fun _ => rfl, fun _ => rfl, fun _ => rfl⟩
  rcases h with ⟨v, h1, h2⟩ | ⟨v, h1, h2⟩ | ⟨v, h1, h2⟩ | ⟨v, h1, h2⟩ | ⟨v, h1, h2⟩
  · exact ⟨.stopArea (some v),
      by simp [PlaceCountainer.Place, PlaceCountainer.eqEmpty, h1, h2], by rw [h1]; rfl⟩
  · exact ⟨.poi (some v),
      by simp [PlaceCountainer.Place, PlaceCountainer.eqEmpty, h1, h2], by rw [h1]; rfl⟩
  · exact ⟨.address (some v),
      by simp [PlaceCountainer.Place, PlaceCountainer.eqEmpty, h1, h2], by rw [h1]; rfl⟩
  · exact ⟨.stopPoint (some v),
      by simp [PlaceCountainer.Place, PlaceCountainer.eqEmpty, h1, h2], by rw [h1]; rfl⟩
  · exact ⟨.administrativeRegion (some v),
      by simp [PlaceCountainer.Place, PlaceCountainer.eqEmpty, h1, h2], by rw [h1]; rfl⟩

/-- Witness for C10: a container tagged `stop_area` holding a stop area;
the returned Place reports type `stop_area`. -/
theorem C10_witness :
    (∃ pl, (PlaceCountainer.mk "" "" 0 "stop_area" (some saEx) none none none none).Place
        = (some pl, none) ∧ pl.PlaceType = some "stop_area") ∧
    (∀ sa : StopArea, sa.PlaceType = "stop_area") ∧
    (∀ p : POI, p.PlaceType = "poi") ∧
    (∀ a : Address, a.PlaceType = "address") ∧
    (∀ sp : StopPoint, sp.PlaceType = "stop_point") ∧
    (∀ ar : AdministrativeRegion, ar.PlaceType = "administrative_region") :=
  C10_placetype_matches_embedded_type
    (PlaceCountainer.mk "" "" 0 "stop_area" (some saEx) none none none none)
    (Or.inl ⟨saEx, rfl, rfl⟩)
